import Mathlib

/-!
Verification of the change-detection-and-dispatch engine of the Mail.tm
server (`src/mailtm/server/srv.py`, class `MailServerBase`).

The Python code is shallowly embedded: the server instance becomes an
explicit `ServerState`, every observable effect (sleeping, fetching,
mutating a last-seen slot, invoking a handler, closing the mail client,
printing a log line) becomes an `Action` recorded in a trace, and the
asynchronous methods become pure functions returning the new state, the
trace of actions they performed, and a success flag (Python exceptions
propagating out of a call are modelled as `ok = false`).

Handlers are opaque: each is a `Nat` tag, and an environment
`fails : Nat → Event → Bool` says which handler invocations raise.
The mail client collaborator is likewise opaque: each tick is driven by a
`TickEnv` giving what `get_messages` / `get_domains` return on that tick
(or that the fetch raises), and whether a `KeyboardInterrupt` arrives
during the tick's sleep.
-/

namespace MailTM

/-- The `Message` modal (`mailtm.abc.modals`) lives outside `srv.py`; only
the fields `srv.py` reads are modelled: the opaque identifier and the
sender address (`message_from.address`, flattened). The second field
stands for "every field other than the identifier". -/
structure Message where
  id : String
  message_from_address : String
  deriving Repr, DecidableEq

/-- The `Domain` modal: identifier plus the human-readable name, the two
fields `srv.py` reads. -/
structure Domain where
  id : String
  domain_name : String
  deriving Repr, DecidableEq

/-- `msg_view.messages`: list ordered newest-first (index 0 = newest). -/
structure MessageView where
  messages : List Message
  deriving Repr, DecidableEq

/-- `domain_view.domains`: list ordered newest-first. -/
structure DomainView where
  domains : List Domain
  deriving Repr, DecidableEq

/-- The two event categories (`NewMessage`, `DomainChange` event types). -/
inductive Category where
  | newMessage
  | domainChange
  deriving Repr, DecidableEq

/-- An event instance: the real events also carry the client and a server
handle, which are identical references on every event, so only the
changed entity is modelled. -/
inductive Event where
  | newMessage (m : Message)
  | domainChange (d : Domain)
  deriving Repr, DecidableEq

/-- `type(event)` as used by `dispatch` for registry lookup. -/
def Event.category : Event → Category
  | .newMessage _ => .newMessage
  | .domainChange _ => .domainChange

/-- Severity literals of `MailServerBase.log`. -/
inductive Severity where
  | INFO
  | WARNING
  | ERROR
  deriving Repr, DecidableEq

/-- One primitive observable effect of the server. -/
inductive Action where
  | banner
  | sleep (n : Int)
  | fetchMessages
  | fetchDomains
  | setLastMsg (m : Message)
  | setLastDomain (d : Domain)
  | invoke (h : Nat) (e : Event)
  | close
  | printLine (sev : Severity) (msg : String)
  | printUnrecognized (msg : String)
  deriving Repr, DecidableEq

/-- The mutable state of a `MailServerBase` instance. The Python handler
registry is a dict keyed by event type; key presence matters (`if
NewMessage in self.handlers`, `if not self.handlers`), so each category
holds an `Option (List Nat)`: `none` = key absent. -/
structure ServerState where
  handlers_newMessage : Option (List Nat)
  handlers_domainChange : Option (List Nat)
  last_msg : List Message
  last_domain : List Domain
  logging_enabled : Bool
  suppress_errors : Bool
  pooling_rate : Option Int
  banner_enabled : Bool
  deriving Repr, DecidableEq

/-- `MailServerBase.__init__`: empty handler dict, empty last-seen lists. -/
def initServer (pooling_rate : Option Int) (banner : Bool)
    (suppress_errors : Bool) (enable_logging : Bool) : ServerState :=
  { handlers_newMessage := none
    handlers_domainChange := none
    last_msg := []
    last_domain := []
    logging_enabled := enable_logging
    suppress_errors := suppress_errors
    pooling_rate := pooling_rate
    banner_enabled := banner }

/-- `__init__` with its default keyword arguments
(`banner=True, suppress_errors=False, enable_logging=False`). -/
def defaultServer (pooling_rate : Option Int) : ServerState :=
  initServer pooling_rate true false false

/-- `MailServerBase.log`: prints only when `_logging_enabled is True`;
INFO prints; with `_suppress_errors is False` WARNING/ERROR print, and
otherwise an "Unrecognized severity" line prints regardless of severity
(the `else` of the `if self._suppress_errors is False` check). -/
def log (st : ServerState) (message : String) (severity : Severity) :
    List Action :=
  if st.logging_enabled then
    (if severity = Severity.INFO
      then [Action.printLine Severity.INFO message] else []) ++
    (if st.suppress_errors = false then
      (if severity = Severity.WARNING
        then [Action.printLine Severity.WARNING message]
       else if severity = Severity.ERROR
        then [Action.printLine Severity.ERROR message]
       else [])
     else [Action.printUnrecognized message])
  else []

/-- `handlers.get(event_type, [])`-style read of one registry slot. -/
def handlersFor (st : ServerState) (cat : Category) : List Nat :=
  match cat with
  | .newMessage => st.handlers_newMessage.getD []
  | .domainChange => st.handlers_domainChange.getD []

/-- The body shared by `subscribe`'s decorator, `on_new_message` and
`on_new_domain`: create the key with `[]` if absent, then append. -/
def subscribe (st : ServerState) (cat : Category) (h : Nat) : ServerState :=
  match cat with
  | .newMessage =>
      { st with
          handlers_newMessage := some (st.handlers_newMessage.getD [] ++ [h]) }
  | .domainChange =>
      { st with
          handlers_domainChange := some (st.handlers_domainChange.getD [] ++ [h]) }

/-- `on_new_message(func)`. -/
def on_new_message (st : ServerState) (h : Nat) : ServerState :=
  subscribe st Category.newMessage h

/-- `on_new_domain(func)`. -/
def on_new_domain (st : ServerState) (h : Nat) : ServerState :=
  subscribe st Category.domainChange h

/-- The `for handler in ...: await handler(event)` loop of `dispatch`,
over an explicit handler list. Each handler is awaited to completion
before the next starts; a raising handler stops the loop and propagates
(`ok = false`). -/
def dispatchList (fails : Nat → Event → Bool) (hs : List Nat) (e : Event) :
    List Action × Bool :=
  match hs with
  | [] => ([], true)
  | h :: rest =>
      if fails h e then ([Action.invoke h e], false)
      else
        let r := dispatchList fails rest e
        (Action.invoke h e :: r.1, r.2)

/-- `MailServerBase.dispatch`: resolves `self.handlers.get(type(event), [])`
and fans out sequentially. -/
def dispatch (fails : Nat → Event → Bool) (st : ServerState) (e : Event) :
    List Action × Bool :=
  dispatchList fails (handlersFor st e.category) e

/-- What one `await self.mail_client.get_*()` call does: returns a view,
returns `None`, or raises. -/
inductive FetchResult (α : Type) where
  | ok (v : Option α)
  | raise
  deriving Repr, DecidableEq

/-- Result of one `_check_for_new_messages` / `_check_for_new_domain`
call: new server state, trace of actions, and whether the call returned
normally (`ok = false` means an exception propagated out of it). -/
structure CheckResult where
  state : ServerState
  trace : List Action
  ok : Bool
  deriving Repr, DecidableEq

/-- `MailServerBase._check_for_new_messages`, line by line:
fetch; if the view is truthy and `view.messages` non-empty, compare
`self._last_msg[0].id` with `msg_view.messages[0].id` (or detect the
empty `_last_msg`); on change, write the slot (`_last_msg[0] = ...` when
non-empty, `.append(...)` when empty), build the event, await `dispatch`,
then `log` on the success path. -/
def check_for_new_messages (fails : Nat → Event → Bool)
    (st : ServerState) (fetch : FetchResult MessageView) : CheckResult :=
  match fetch with
  | .raise => ⟨st, [Action.fetchMessages], false⟩
  | .ok none => ⟨st, [Action.fetchMessages], true⟩
  | .ok (some view) =>
    match view.messages with
    | [] => ⟨st, [Action.fetchMessages], true⟩
    | m :: _ =>
      match st.last_msg with
      | [] =>
          let st' := { st with last_msg := st.last_msg ++ [m] }
          let d := dispatch fails st' (Event.newMessage m)
          ⟨st',
            [Action.fetchMessages, Action.setLastMsg m] ++ d.1 ++
              (if d.2 then
                log st' ("RECIEVED new message from: "
                  ++ m.message_from_address) Severity.INFO
               else []),
            d.2⟩
      | m0 :: _ =>
          if m0.id = m.id then ⟨st, [Action.fetchMessages], true⟩
          else
            let st' := { st with last_msg := st.last_msg.set 0 m }
            let d := dispatch fails st' (Event.newMessage m)
            ⟨st',
              [Action.fetchMessages, Action.setLastMsg m] ++ d.1 ++
                (if d.2 then
                  log st' ("RECIEVED new message from: "
                    ++ m.message_from_address) Severity.INFO
                 else []),
              d.2⟩

/-- `MailServerBase._check_for_new_domain`: identical shape, keyed on
`domain.id`, dispatching a `DomainChange` event and logging with
severity WARNING. -/
def check_for_new_domain (fails : Nat → Event → Bool)
    (st : ServerState) (fetch : FetchResult DomainView) : CheckResult :=
  match fetch with
  | .raise => ⟨st, [Action.fetchDomains], false⟩
  | .ok none => ⟨st, [Action.fetchDomains], true⟩
  | .ok (some view) =>
    match view.domains with
    | [] => ⟨st, [Action.fetchDomains], true⟩
    | d :: _ =>
      match st.last_domain with
      | [] =>
          let st' := { st with last_domain := st.last_domain ++ [d] }
          let r := dispatch fails st' (Event.domainChange d)
          ⟨st',
            [Action.fetchDomains, Action.setLastDomain d] ++ r.1 ++
              (if r.2 then
                log st' ("Domain Changed: " ++ d.domain_name)
                  Severity.WARNING
               else []),
            r.2⟩
      | d0 :: _ =>
          if d0.id = d.id then ⟨st, [Action.fetchDomains], true⟩
          else
            let st' := { st with last_domain := st.last_domain.set 0 d }
            let r := dispatch fails st' (Event.domainChange d)
            ⟨st',
              [Action.fetchDomains, Action.setLastDomain d] ++ r.1 ++
                (if r.2 then
                  log st' ("Domain Changed: " ++ d.domain_name)
                    Severity.WARNING
                 else []),
              r.2⟩

/-- `self._pooling_rate or 1`: Python `or` takes the right operand on a
falsy left operand; for `Optional[int]` that is `None` and `0`. -/
def pyOr1 : Option Int → Int
  | none => 1
  | some v => if v = 0 then 1 else v

/-- The environment of one loop iteration: whether a `KeyboardInterrupt`
arrives at the tick's sleep, and what the two fetches would return. -/
structure TickEnv where
  interrupt : Bool
  msgFetch : FetchResult MessageView
  domFetch : FetchResult DomainView

/-- How one iteration of the `while True` loop ends: normally (loop
continues), by an `Exception` escaping the body (`excFromCheck = true`
when a check raised, `false` for the explicit no-subscribers raise), or
by a `KeyboardInterrupt` (which `except Exception` does not catch). -/
inductive TickExit where
  | normal
  | exc (fromCheck : Bool)
  | kb
  deriving Repr, DecidableEq

/-- `if NewMessage in self.handlers: await self._check_for_new_messages()`:
the message half of the loop body (a no-op when the key is absent). -/
def msgPhase (fails : Nat → Event → Bool) (st : ServerState) (env : TickEnv) :
    CheckResult :=
  if st.handlers_newMessage.isSome then
    check_for_new_messages fails st env.msgFetch
  else ⟨st, [], true⟩

/-- `if DomainChange in self.handlers: await self._check_for_new_domain()`:
the domain half of the loop body. -/
def domPhase (fails : Nat → Event → Bool) (st : ServerState) (env : TickEnv) :
    CheckResult :=
  if st.handlers_domainChange.isSome then
    check_for_new_domain fails st env.domFetch
  else ⟨st, [], true⟩

/-- One iteration of the `while True` body in `runner`:
sleep `_pooling_rate or 1`; if `NewMessage in self.handlers` run the
message check; if `DomainChange in self.handlers` run the domain check;
if `not self.handlers` close the client and raise. -/
def tick (fails : Nat → Event → Bool) (st : ServerState) (env : TickEnv) :
    ServerState × List Action × TickExit :=
  if env.interrupt then (st, [], TickExit.kb)
  else
    let t0 := [Action.sleep (pyOr1 st.pooling_rate)]
    let r1 := msgPhase fails st env
    if r1.ok = false then (r1.state, t0 ++ r1.trace, TickExit.exc true)
    else
      let r2 := domPhase fails r1.state env
      if r2.ok = false then
        (r2.state, t0 ++ r1.trace ++ r2.trace, TickExit.exc true)
      else
        if r2.state.handlers_newMessage.isNone
            && r2.state.handlers_domainChange.isNone then
          (r2.state, t0 ++ r1.trace ++ r2.trace ++ [Action.close],
            TickExit.exc false)
        else (r2.state, t0 ++ r1.trace ++ r2.trace, TickExit.normal)

/-- How the `while True` loop as a whole ends, driven by a finite list of
tick environments: the environments ran out with the loop still going,
an `Exception` escaped into `runner`'s `except Exception`, or a
`KeyboardInterrupt` propagated out of `runner`. -/
inductive LoopExit where
  | outOfEnvs
  | excCaught
  | kbPropagated
  deriving Repr, DecidableEq

/-- The `while True` loop of `runner`, iterated over the tick
environments until one iteration exits abnormally. -/
def runnerLoop (fails : Nat → Event → Bool) (st : ServerState) :
    List TickEnv → ServerState × List Action × LoopExit
  | [] => (st, [], LoopExit.outOfEnvs)
  | env :: rest =>
    let r := tick fails st env
    match r.2.2 with
    | TickExit.normal =>
        let rr := runnerLoop fails r.1 rest
        (rr.1, r.2.1 ++ rr.2.1, rr.2.2)
    | TickExit.exc _ => (r.1, r.2.1, LoopExit.excCaught)
    | TickExit.kb => (r.1, r.2.1, LoopExit.kbPropagated)

/-- The startup preamble of `runner`: the banner (when enabled) and the
five informational `log` calls before the loop. -/
def preamble (st : ServerState) : List Action :=
  (if st.banner_enabled then [Action.banner] else []) ++
  log st "Server-> Session Started" Severity.INFO ++
  log st "Server-> Pooling rate" Severity.INFO ++
  log st "Server-> Logging enabled" Severity.INFO ++
  log st "Server-> Banner enabled" Severity.INFO ++
  log st "Server-> Subscribed events" Severity.INFO

/-- `MailServerBase.runner`: preamble, then the loop inside
`try ... except Exception`, whose handler closes the mail client and
calls `log` (default severity INFO). A `KeyboardInterrupt` is not an
`Exception`, so it skips that handler and propagates. -/
def runner (fails : Nat → Event → Bool) (st : ServerState)
    (envs : List TickEnv) : ServerState × List Action × LoopExit :=
  let lp := runnerLoop fails st envs
  match lp.2.2 with
  | LoopExit.excCaught =>
      (lp.1,
        preamble st ++ lp.2.1 ++ [Action.close] ++
          log lp.1 "Exception while running server" Severity.INFO,
        LoopExit.excCaught)
  | LoopExit.outOfEnvs => (lp.1, preamble st ++ lp.2.1, LoopExit.outOfEnvs)
  | LoopExit.kbPropagated =>
      (lp.1, preamble st ++ lp.2.1, LoopExit.kbPropagated)

/-- `MailServerBase.run`: `run_until_complete(runner())` inside
`try ... except KeyboardInterrupt`, whose handler only logs a WARNING
goodbye (it does not close the mail client). -/
def run (fails : Nat → Event → Bool) (st : ServerState)
    (envs : List TickEnv) : ServerState × List Action :=
  let r := runner fails st envs
  match r.2.2 with
  | LoopExit.kbPropagated =>
      (r.1, r.2.1 ++
        log r.1 "Server is closing its operations. Goodbye!"
          Severity.WARNING)
  | _ => (r.1, r.2.1)

/-- Classifier: a handler invocation. -/
def isInvoke : Action → Bool
  | Action.invoke _ _ => true
  | _ => false

/-- Classifier: an invocation of a handler with a `NewMessage` event. -/
def isNewMessageInvoke : Action → Bool
  | Action.invoke _ (Event.newMessage _) => true
  | _ => false

/-- Classifier: a console print. -/
def isPrint : Action → Bool
  | Action.printLine _ _ => true
  | Action.printUnrecognized _ => true
  | _ => false

/-- Classifier: a `mail_client.close()` call. -/
def isClose : Action → Bool
  | Action.close => true
  | _ => false

/-- Classifier: a `mail_client.get_domains()` call. -/
def isFetchDomains : Action → Bool
  | Action.fetchDomains => true
  | _ => false

/-- Classifier: a write to the `_last_msg` slot. -/
def isSetLastMsg : Action → Bool
  | Action.setLastMsg _ => true
  | _ => false

/-- Classifier: a write to the `_last_domain` slot. -/
def isSetLastDomain : Action → Bool
  | Action.setLastDomain _ => true
  | _ => false

/-- Number of `mail_client.close()` calls in a trace. -/
def closeCount (tr : List Action) : Nat :=
  tr.countP isClose

/-- The handler invocations of a trace, in order. -/
def invokes (tr : List Action) : List Action :=
  tr.filter isInvoke

/-- The console prints of a trace. -/
def prints (tr : List Action) : List Action :=
  tr.filter isPrint

/-- Writes to the message last-seen slot in a trace. -/
def msgWrites (tr : List Action) : Nat :=
  tr.countP isSetLastMsg

/-- Writes to the domain last-seen slot in a trace. -/
def domainWrites (tr : List Action) : Nat :=
  tr.countP isSetLastDomain

/-! ### Concrete scenario data -/

/-- Handler environment in which no handler ever raises. -/
def noFail : Nat → Event → Bool := fun _ _ => false

/-- Handler environment in which every handler invocation raises. -/
def failAll : Nat → Event → Bool := fun _ _ => true

/-- A sample message with identifier `m1`. -/
def msgM1 : Message := ⟨"m1", "alice@a.net"⟩

/-- A sample message with identifier `m2`. -/
def msgM2 : Message := ⟨"m2", "bob@b.net"⟩

/-- A message sharing `msgM1`'s identifier but differing in the other
field. -/
def msgM1other : Message := ⟨"m1", "carol@c.net"⟩

/-- A sample domain with identifier `d1`. -/
def domD1 : Domain := ⟨"d1", "one.net"⟩

/-- A domain sharing `domD1`'s identifier but differing in the name. -/
def domD1other : Domain := ⟨"d1", "renamed.net"⟩

/-- A tick on which both fetches return `None` and no interrupt occurs. -/
def quietTick : TickEnv := ⟨false, FetchResult.ok none, FetchResult.ok none⟩

/-- A tick interrupted by a `KeyboardInterrupt` during its sleep. -/
def kbTick : TickEnv := ⟨true, FetchResult.ok none, FetchResult.ok none⟩

/-- A tick whose message fetch returns the single message `m`. -/
def msgTick (m : Message) : TickEnv :=
  ⟨false, FetchResult.ok (some ⟨[m]⟩), FetchResult.ok none⟩

/-- A tick whose fetches return `m` and `d` respectively. -/
def bothTick (m : Message) (d : Domain) : TickEnv :=
  ⟨false, FetchResult.ok (some ⟨[m]⟩), FetchResult.ok (some ⟨[d]⟩)⟩

/-- A quiet server: no banner, no logging, defaults otherwise. -/
def quietServer : ServerState := initServer none false false false

/-- A quiet server with a single `NewMessage` handler (tag 0). -/
def oneMsgHandlerServer : ServerState := on_new_message quietServer 0

/-- A quiet server with a `NewMessage` handler and a `DomainChange`
handler. -/
def twoCatServer : ServerState :=
  on_new_domain (on_new_message quietServer 0) 1

/-- A quiet server where handler 0 is registered twice and handler 1
once for `NewMessage` (duplicate registration). -/
def dupHandlerServer : ServerState :=
  on_new_message (on_new_message (on_new_message quietServer 0) 0) 1

/-- A server with logging enabled and one `NewMessage` handler. -/
def loggingServer : ServerState :=
  on_new_message (initServer none false false true) 0

/-- A two-category server whose last-seen slots already hold `msgM1` and
`domD1`. -/
def seededServer : ServerState :=
  { twoCatServer with last_msg := [msgM1], last_domain := [domD1] }

/-- A one-handler server whose message slot already holds `msgM1`. -/
def seededMsgServer : ServerState :=
  { oneMsgHandlerServer with last_msg := [msgM1] }

/-! ### Helper lemmas: dispatch -/

theorem dispatchList_mem (fails : Nat → Event → Bool) (hs : List Nat)
    (e : Event) :
    ∀ a ∈ (dispatchList fails hs e).1, ∃ h, a = Action.invoke h e := by
  induction hs with
  | nil => intro a ha; simp [dispatchList] at ha
  | cons h rest ih =>
      intro a ha
      unfold dispatchList at ha
      cases hf : fails h e with
      | true =>
          simp [hf] at ha
          exact ⟨h, ha⟩
      | false =>
          simp [hf] at ha
          rcases ha with rfl | ha
          · exact ⟨h, rfl⟩
          · exact ih a ha

theorem dispatch_mem (fails : Nat → Event → Bool) (st : ServerState)
    (e : Event) :
    ∀ a ∈ (dispatch fails st e).1, ∃ h, a = Action.invoke h e :=
  fun a ha => dispatchList_mem fails (handlersFor st e.category) e a ha

theorem dispatchList_eq_map (fails : Nat → Event → Bool) (hs : List Nat)
    (e : Event) (h : ∀ x ∈ hs, fails x e = false) :
    dispatchList fails hs e = (hs.map fun x => Action.invoke x e, true) := by
  induction hs with
  | nil => rfl
  | cons a rest ih =>
      have ha : fails a e = false := h a (by simp)
      have hrest : ∀ x ∈ rest, fails x e = false :=
        fun x hx => h x (by simp [hx])
      simp [dispatchList, ha, ih hrest]

/-! ### Helper lemmas: log and preamble -/

theorem log_mem (st : ServerState) (msg : String) (sev : Severity) :
    ∀ a ∈ log st msg sev, isPrint a = true := by
  intro a ha
  unfold log at ha
  cases hl : st.logging_enabled with
  | false => simp [hl] at ha
  | true =>
      cases hsup : st.suppress_errors <;> cases sev <;>
        simp [hl, hsup] at ha <;>
        first
          | (subst ha; rfl)
          | (rcases ha with rfl | rfl <;> rfl)

theorem log_nonempty_of_logging (st : ServerState) (msg : String)
    (h : st.logging_enabled = true) :
    Action.printLine Severity.INFO msg ∈ log st msg Severity.INFO := by
  unfold log
  cases hsup : st.suppress_errors <;> simp [h, hsup]

theorem preamble_mem (st : ServerState) :
    ∀ a ∈ preamble st, a = Action.banner ∨ isPrint a = true := by
  intro a ha
  unfold preamble at ha
  rcases List.mem_append.mp ha with h1 | h2
  · rcases List.mem_append.mp h1 with h3 | h4
    · rcases List.mem_append.mp h3 with h5 | h6
      · rcases List.mem_append.mp h5 with h7 | h8
        · rcases List.mem_append.mp h7 with h9 | h10
          · cases hb : st.banner_enabled <;> simp [hb] at h9
            exact Or.inl h9
          · exact Or.inr (log_mem st _ _ a h10)
        · exact Or.inr (log_mem st _ _ a h8)
      · exact Or.inr (log_mem st _ _ a h6)
    · exact Or.inr (log_mem st _ _ a h4)
  · exact Or.inr (log_mem st _ _ a h2)

/-! ### Helper lemmas: shape of the check traces -/

theorem changeTrace_mem (P : Action → Prop) (fails : Nat → Event → Bool)
    (st' : ServerState) (a0 a1 : Action) (e : Event) (msg : String)
    (sev : Severity) (h0 : P a0) (h1 : P a1)
    (hinv : ∀ h, P (Action.invoke h e))
    (hpr : ∀ b, isPrint b = true → P b) :
    ∀ a ∈ [a0, a1] ++ (dispatch fails st' e).1 ++
        (if (dispatch fails st' e).2 then log st' msg sev else []), P a := by
  intro a ha
  rcases List.mem_append.mp ha with h2 | h3
  · rcases List.mem_append.mp h2 with h4 | h5
    · simp only [List.mem_cons, List.not_mem_nil, or_false] at h4
      rcases h4 with rfl | rfl
      · exact h0
      · exact h1
    · obtain ⟨h, rfl⟩ := dispatch_mem fails st' e a h5
      exact hinv h
  · split at h3
    · exact hpr a (log_mem st' msg sev a h3)
    · exact absurd h3 (List.not_mem_nil a)

theorem check_msgs_trace_mem (fails : Nat → Event → Bool)
    (st : ServerState) (f : FetchResult MessageView) :
    ∀ a ∈ (check_for_new_messages fails st f).trace,
      a = Action.fetchMessages ∨ isSetLastMsg a = true ∨
        (∃ h m, a = Action.invoke h (Event.newMessage m)) ∨
        isPrint a = true := by
  obtain ⟨hnm, hdc, lm, ld, le, se, pr, be⟩ := st
  intro a ha
  cases f with
  | raise =>
      simp [check_for_new_messages] at ha
      exact Or.inl ha
  | ok mv =>
    cases mv with
    | none =>
        simp [check_for_new_messages] at ha
        exact Or.inl ha
    | some view =>
      obtain ⟨msgs⟩ := view
      cases msgs with
      | nil =>
          simp [check_for_new_messages] at ha
          exact Or.inl ha
      | cons m ms =>
        cases lm with
        | nil =>
            simp only [check_for_new_messages] at ha
            refine changeTrace_mem
              (fun a => a = Action.fetchMessages ∨ isSetLastMsg a = true ∨
                (∃ h m, a = Action.invoke h (Event.newMessage m)) ∨
                isPrint a = true)
              fails _ _ _ _ _ _ (Or.inl rfl) ?_ ?_ ?_ a ha
            · exact Or.inr (Or.inl rfl)
            · intro h; exact Or.inr (Or.inr (Or.inl ⟨h, m, rfl⟩))
            · intro b hb; exact Or.inr (Or.inr (Or.inr hb))
        | cons m0 tl =>
            by_cases hid : m0.id = m.id
            · simp [check_for_new_messages, hid] at ha
              exact Or.inl ha
            · simp only [check_for_new_messages, if_neg hid] at ha
              refine changeTrace_mem
                (fun a => a = Action.fetchMessages ∨ isSetLastMsg a = true ∨
                  (∃ h m, a = Action.invoke h (Event.newMessage m)) ∨
                  isPrint a = true)
                fails _ _ _ _ _ _ (Or.inl rfl) ?_ ?_ ?_ a ha
              · exact Or.inr (Or.inl rfl)
              · intro h; exact Or.inr (Or.inr (Or.inl ⟨h, m, rfl⟩))
              · intro b hb; exact Or.inr (Or.inr (Or.inr hb))

theorem check_dom_trace_mem (fails : Nat → Event → Bool)
    (st : ServerState) (f : FetchResult DomainView) :
    ∀ a ∈ (check_for_new_domain fails st f).trace,
      a = Action.fetchDomains ∨ isSetLastDomain a = true ∨
        (∃ h d, a = Action.invoke h (Event.domainChange d)) ∨
        isPrint a = true := by
  obtain ⟨hnm, hdc, lm, ld, le, se, pr, be⟩ := st
  intro a ha
  cases f with
  | raise =>
      simp [check_for_new_domain] at ha
      exact Or.inl ha
  | ok dv =>
    cases dv with
    | none =>
        simp [check_for_new_domain] at ha
        exact Or.inl ha
    | some view =>
      obtain ⟨doms⟩ := view
      cases doms with
      | nil =>
          simp [check_for_new_domain] at ha
          exact Or.inl ha
      | cons d ds =>
        cases ld with
        | nil =>
            simp only [check_for_new_domain] at ha
            refine changeTrace_mem
              (fun a => a = Action.fetchDomains ∨ isSetLastDomain a = true ∨
                (∃ h d, a = Action.invoke h (Event.domainChange d)) ∨
                isPrint a = true)
              fails _ _ _ _ _ _ (Or.inl rfl) ?_ ?_ ?_ a ha
            · exact Or.inr (Or.inl rfl)
            · intro h; exact Or.inr (Or.inr (Or.inl ⟨h, d, rfl⟩))
            · intro b hb; exact Or.inr (Or.inr (Or.inr hb))
        | cons d0 tl =>
            by_cases hid : d0.id = d.id
            · simp [check_for_new_domain, hid] at ha
              exact Or.inl ha
            · simp only [check_for_new_domain, if_neg hid] at ha
              refine changeTrace_mem
                (fun a => a = Action.fetchDomains ∨ isSetLastDomain a = true ∨
                  (∃ h d, a = Action.invoke h (Event.domainChange d)) ∨
                  isPrint a = true)
                fails _ _ _ _ _ _ (Or.inl rfl) ?_ ?_ ?_ a ha
              · exact Or.inr (Or.inl rfl)
              · intro h; exact Or.inr (Or.inr (Or.inl ⟨h, d, rfl⟩))
              · intro b hb; exact Or.inr (Or.inr (Or.inr hb))

/-! ### Classifier corollaries for the check traces -/

theorem check_msgs_no_fetchDomains (fails : Nat → Event → Bool)
    (st : ServerState) (f : FetchResult MessageView) :
    ∀ a ∈ (check_for_new_messages fails st f).trace,
      isFetchDomains a = false := by
  intro a ha
  rcases check_msgs_trace_mem fails st f a ha with rfl | hb | ⟨h, m, rfl⟩ | hb
  · rfl
  · cases a <;> simp_all [isSetLastMsg, isFetchDomains]
  · rfl
  · cases a <;> simp_all [isPrint, isFetchDomains]

theorem check_msgs_no_close (fails : Nat → Event → Bool)
    (st : ServerState) (f : FetchResult MessageView) :
    ∀ a ∈ (check_for_new_messages fails st f).trace, isClose a = false := by
  intro a ha
  rcases check_msgs_trace_mem fails st f a ha with rfl | hb | ⟨h, m, rfl⟩ | hb
  · rfl
  · cases a <;> simp_all [isSetLastMsg, isClose]
  · rfl
  · cases a <;> simp_all [isPrint, isClose]

theorem check_msgs_no_setLastDomain (fails : Nat → Event → Bool)
    (st : ServerState) (f : FetchResult MessageView) :
    ∀ a ∈ (check_for_new_messages fails st f).trace,
      isSetLastDomain a = false := by
  intro a ha
  rcases check_msgs_trace_mem fails st f a ha with rfl | hb | ⟨h, m, rfl⟩ | hb
  · rfl
  · cases a <;> simp_all [isSetLastMsg, isSetLastDomain]
  · rfl
  · cases a <;> simp_all [isPrint, isSetLastDomain]

theorem check_dom_no_nmInvoke (fails : Nat → Event → Bool)
    (st : ServerState) (f : FetchResult DomainView) :
    ∀ a ∈ (check_for_new_domain fails st f).trace,
      isNewMessageInvoke a = false := by
  intro a ha
  rcases check_dom_trace_mem fails st f a ha with rfl | hb | ⟨h, d, rfl⟩ | hb
  · rfl
  · cases a <;> simp_all [isSetLastDomain, isNewMessageInvoke]
  · rfl
  · cases a <;> simp_all [isPrint, isNewMessageInvoke]

theorem check_dom_no_close (fails : Nat → Event → Bool)
    (st : ServerState) (f : FetchResult DomainView) :
    ∀ a ∈ (check_for_new_domain fails st f).trace, isClose a = false := by
  intro a ha
  rcases check_dom_trace_mem fails st f a ha with rfl | hb | ⟨h, d, rfl⟩ | hb
  · rfl
  · cases a <;> simp_all [isSetLastDomain, isClose]
  · rfl
  · cases a <;> simp_all [isPrint, isClose]

theorem check_dom_no_setLastMsg (fails : Nat → Event → Bool)
    (st : ServerState) (f : FetchResult DomainView) :
    ∀ a ∈ (check_for_new_domain fails st f).trace,
      isSetLastMsg a = false := by
  intro a ha
  rcases check_dom_trace_mem fails st f a ha with rfl | hb | ⟨h, d, rfl⟩ | hb
  · rfl
  · cases a <;> simp_all [isSetLastDomain, isSetLastMsg]
  · rfl
  · cases a <;> simp_all [isPrint, isSetLastMsg]

/-! ### State-frame lemmas for the checks -/

theorem check_msgs_state (fails : Nat → Event → Bool) (st : ServerState)
    (f : FetchResult MessageView) :
    ∃ l, (check_for_new_messages fails st f).state =
      { st with last_msg := l } := by
  obtain ⟨hnm, hdc, lm, ld, le, se, pr, be⟩ := st
  cases f with
  | raise => exact ⟨lm, rfl⟩
  | ok mv =>
    cases mv with
    | none => exact ⟨lm, rfl⟩
    | some view =>
      obtain ⟨msgs⟩ := view
      cases msgs with
      | nil => exact ⟨lm, rfl⟩
      | cons m ms =>
        cases lm with
        | nil => exact ⟨[] ++ [m], rfl⟩
        | cons m0 tl =>
            by_cases hid : m0.id = m.id
            · refine ⟨m0 :: tl, ?_⟩
              simp [check_for_new_messages, hid]
            · refine ⟨(m0 :: tl).set 0 m, ?_⟩
              simp [check_for_new_messages, hid]

theorem check_dom_state (fails : Nat → Event → Bool) (st : ServerState)
    (f : FetchResult DomainView) :
    ∃ l, (check_for_new_domain fails st f).state =
      { st with last_domain := l } := by
  obtain ⟨hnm, hdc, lm, ld, le, se, pr, be⟩ := st
  cases f with
  | raise => exact ⟨ld, rfl⟩
  | ok dv =>
    cases dv with
    | none => exact ⟨ld, rfl⟩
    | some view =>
      obtain ⟨doms⟩ := view
      cases doms with
      | nil => exact ⟨ld, rfl⟩
      | cons d ds =>
        cases ld with
        | nil => exact ⟨[] ++ [d], rfl⟩
        | cons d0 tl =>
            by_cases hid : d0.id = d.id
            · refine ⟨d0 :: tl, ?_⟩
              simp [check_for_new_domain, hid]
            · refine ⟨(d0 :: tl).set 0 d, ?_⟩
              simp [check_for_new_domain, hid]

theorem check_msgs_last_msg (fails : Nat → Event → Bool) (st : ServerState)
    (f : FetchResult MessageView) :
    (check_for_new_messages fails st f).state.last_msg = st.last_msg ∨
    (st.last_msg = [] ∧
      ∃ m, (check_for_new_messages fails st f).state.last_msg = [m]) ∨
    (∃ m, (check_for_new_messages fails st f).state.last_msg =
      st.last_msg.set 0 m) := by
  obtain ⟨hnm, hdc, lm, ld, le, se, pr, be⟩ := st
  cases f with
  | raise => exact Or.inl rfl
  | ok mv =>
    cases mv with
    | none => exact Or.inl rfl
    | some view =>
      obtain ⟨msgs⟩ := view
      cases msgs with
      | nil => exact Or.inl rfl
      | cons m ms =>
        cases lm with
        | nil => exact Or.inr (Or.inl ⟨rfl, m, rfl⟩)
        | cons m0 tl =>
            by_cases hid : m0.id = m.id
            · refine Or.inl ?_
              simp [check_for_new_messages, hid]
            · refine Or.inr (Or.inr ⟨m, ?_⟩)
              simp [check_for_new_messages, hid]

theorem check_dom_last_domain (fails : Nat → Event → Bool)
    (st : ServerState) (f : FetchResult DomainView) :
    (check_for_new_domain fails st f).state.last_domain = st.last_domain ∨
    (st.last_domain = [] ∧
      ∃ d, (check_for_new_domain fails st f).state.last_domain = [d]) ∨
    (∃ d, (check_for_new_domain fails st f).state.last_domain =
      st.last_domain.set 0 d) := by
  obtain ⟨hnm, hdc, lm, ld, le, se, pr, be⟩ := st
  cases f with
  | raise => exact Or.inl rfl
  | ok dv =>
    cases dv with
    | none => exact Or.inl rfl
    | some view =>
      obtain ⟨doms⟩ := view
      cases doms with
      | nil => exact Or.inl rfl
      | cons d ds =>
        cases ld with
        | nil => exact Or.inr (Or.inl ⟨rfl, d, rfl⟩)
        | cons d0 tl =>
            by_cases hid : d0.id = d.id
            · refine Or.inl ?_
              simp [check_for_new_domain, hid]
            · refine Or.inr (Or.inr ⟨d, ?_⟩)
              simp [check_for_new_domain, hid]

/-! ### Phase lemmas -/

theorem msgPhase_no_fetchDomains (fails : Nat → Event → Bool)
    (st : ServerState) (env : TickEnv) :
    ∀ a ∈ (msgPhase fails st env).trace, isFetchDomains a = false := by
  unfold msgPhase
  split
  · exact check_msgs_no_fetchDomains fails st env.msgFetch
  · intro a ha; exact absurd ha (List.not_mem_nil a)

theorem msgPhase_no_close (fails : Nat → Event → Bool)
    (st : ServerState) (env : TickEnv) :
    ∀ a ∈ (msgPhase fails st env).trace, isClose a = false := by
  unfold msgPhase
  split
  · exact check_msgs_no_close fails st env.msgFetch
  · intro a ha; exact absurd ha (List.not_mem_nil a)

theorem msgPhase_no_setLastDomain (fails : Nat → Event → Bool)
    (st : ServerState) (env : TickEnv) :
    ∀ a ∈ (msgPhase fails st env).trace, isSetLastDomain a = false := by
  unfold msgPhase
  split
  · exact check_msgs_no_setLastDomain fails st env.msgFetch
  · intro a ha; exact absurd ha (List.not_mem_nil a)

theorem domPhase_no_nmInvoke (fails : Nat → Event → Bool)
    (st : ServerState) (env : TickEnv) :
    ∀ a ∈ (domPhase fails st env).trace, isNewMessageInvoke a = false := by
  unfold domPhase
  split
  · exact check_dom_no_nmInvoke fails st env.domFetch
  · intro a ha; exact absurd ha (List.not_mem_nil a)

theorem domPhase_no_close (fails : Nat → Event → Bool)
    (st : ServerState) (env : TickEnv) :
    ∀ a ∈ (domPhase fails st env).trace, isClose a = false := by
  unfold domPhase
  split
  · exact check_dom_no_close fails st env.domFetch
  · intro a ha; exact absurd ha (List.not_mem_nil a)

theorem domPhase_no_setLastMsg (fails : Nat → Event → Bool)
    (st : ServerState) (env : TickEnv) :
    ∀ a ∈ (domPhase fails st env).trace, isSetLastMsg a = false := by
  unfold domPhase
  split
  · exact check_dom_no_setLastMsg fails st env.domFetch
  · intro a ha; exact absurd ha (List.not_mem_nil a)

theorem msgPhase_state (fails : Nat → Event → Bool) (st : ServerState)
    (env : TickEnv) :
    ∃ l, (msgPhase fails st env).state = { st with last_msg := l } := by
  unfold msgPhase
  split
  · exact check_msgs_state fails st env.msgFetch
  · exact ⟨st.last_msg, rfl⟩

theorem domPhase_state (fails : Nat → Event → Bool) (st : ServerState)
    (env : TickEnv) :
    ∃ l, (domPhase fails st env).state = { st with last_domain := l } := by
  unfold domPhase
  split
  · exact check_dom_state fails st env.domFetch
  · exact ⟨st.last_domain, rfl⟩

theorem msgPhase_len (fails : Nat → Event → Bool) (st : ServerState)
    (env : TickEnv) (h : st.last_msg.length ≤ 1) :
    (msgPhase fails st env).state.last_msg.length ≤ 1 := by
  unfold msgPhase
  split
  · rcases check_msgs_last_msg fails st env.msgFetch with he | ⟨_, m, he⟩ | ⟨m, he⟩ <;>
      rw [he]
    · exact h
    · simp
    · simpa using h
  · exact h

theorem domPhase_len (fails : Nat → Event → Bool) (st : ServerState)
    (env : TickEnv) (h : st.last_domain.length ≤ 1) :
    (domPhase fails st env).state.last_domain.length ≤ 1 := by
  unfold domPhase
  split
  · rcases check_dom_last_domain fails st env.domFetch with he | ⟨_, d, he⟩ | ⟨d, he⟩ <;>
      rw [he]
    · exact h
    · simp
    · simpa using h
  · exact h

/-! ### Count lemmas -/

theorem closeCount_append (a b : List Action) :
    closeCount (a ++ b) = closeCount a + closeCount b :=
  List.countP_append isClose a b

theorem msgWrites_append (a b : List Action) :
    msgWrites (a ++ b) = msgWrites a + msgWrites b :=
  List.countP_append isSetLastMsg a b

theorem domainWrites_append (a b : List Action) :
    domainWrites (a ++ b) = domainWrites a + domainWrites b :=
  List.countP_append isSetLastDomain a b

theorem closeCount_eq_zero (tr : List Action)
    (h : ∀ a ∈ tr, isClose a = false) : closeCount tr = 0 := by
  unfold closeCount
  rw [List.countP_eq_zero]
  intro a ha
  simp [h a ha]

theorem msgWrites_eq_zero (tr : List Action)
    (h : ∀ a ∈ tr, isSetLastMsg a = false) : msgWrites tr = 0 := by
  unfold msgWrites
  rw [List.countP_eq_zero]
  intro a ha
  simp [h a ha]

theorem domainWrites_eq_zero (tr : List Action)
    (h : ∀ a ∈ tr, isSetLastDomain a = false) : domainWrites tr = 0 := by
  unfold domainWrites
  rw [List.countP_eq_zero]
  intro a ha
  simp [h a ha]

theorem log_only_prints (st : ServerState) (m : String) (sev : Severity)
    (p : Action → Bool) (hp : ∀ a, isPrint a = true → p a = false) :
    (log st m sev).countP p = 0 := by
  rw [List.countP_eq_zero]
  intro a ha
  simp [hp a (log_mem st m sev a ha)]

theorem msgWrites_log (st : ServerState) (m : String) (sev : Severity) :
    msgWrites (log st m sev) = 0 :=
  log_only_prints st m sev isSetLastMsg
    (fun a => by cases a <;> simp [isPrint, isSetLastMsg])

theorem domainWrites_log (st : ServerState) (m : String) (sev : Severity) :
    domainWrites (log st m sev) = 0 :=
  log_only_prints st m sev isSetLastDomain
    (fun a => by cases a <;> simp [isPrint, isSetLastDomain])

theorem closeCount_log (st : ServerState) (m : String) (sev : Severity) :
    closeCount (log st m sev) = 0 :=
  log_only_prints st m sev isClose
    (fun a => by cases a <;> simp [isPrint, isClose])

theorem closeCount_preamble (st : ServerState) :
    closeCount (preamble st) = 0 := by
  apply closeCount_eq_zero
  intro a ha
  rcases preamble_mem st a ha with rfl | hb
  · rfl
  · cases a <;> simp_all [isPrint, isClose]

theorem msgWrites_dispatchList (fails : Nat → Event → Bool) (hs : List Nat)
    (e : Event) : msgWrites (dispatchList fails hs e).1 = 0 := by
  apply msgWrites_eq_zero
  intro a ha
  obtain ⟨h, rfl⟩ := dispatchList_mem fails hs e a ha
  rfl

theorem domainWrites_dispatchList (fails : Nat → Event → Bool)
    (hs : List Nat) (e : Event) :
    domainWrites (dispatchList fails hs e).1 = 0 := by
  apply domainWrites_eq_zero
  intro a ha
  obtain ⟨h, rfl⟩ := dispatchList_mem fails hs e a ha
  rfl

theorem closeCount_msgPhase (fails : Nat → Event → Bool) (st : ServerState)
    (env : TickEnv) : closeCount (msgPhase fails st env).trace = 0 :=
  closeCount_eq_zero _ (msgPhase_no_close fails st env)

theorem closeCount_domPhase (fails : Nat → Event → Bool) (st : ServerState)
    (env : TickEnv) : closeCount (domPhase fails st env).trace = 0 :=
  closeCount_eq_zero _ (domPhase_no_close fails st env)

/-! ### Tick lemmas -/

/-- Exhaustive characterization of one loop iteration: interrupted sleep,
message-check failure, domain-check failure, the no-subscribers raise, or
a normal iteration. -/
theorem tick_cases (fails : Nat → Event → Bool) (st : ServerState)
    (env : TickEnv) :
    (env.interrupt = true ∧ tick fails st env = (st, [], TickExit.kb))
  ∨ (env.interrupt = false ∧ (msgPhase fails st env).ok = false ∧
      tick fails st env = ((msgPhase fails st env).state,
        [Action.sleep (pyOr1 st.pooling_rate)] ++ (msgPhase fails st env).trace,
        TickExit.exc true))
  ∨ (env.interrupt = false ∧ (msgPhase fails st env).ok = true ∧
      (domPhase fails (msgPhase fails st env).state env).ok = false ∧
      tick fails st env =
        ((domPhase fails (msgPhase fails st env).state env).state,
         [Action.sleep (pyOr1 st.pooling_rate)] ++
           (msgPhase fails st env).trace ++
           (domPhase fails (msgPhase fails st env).state env).trace,
         TickExit.exc true))
  ∨ (env.interrupt = false ∧ (msgPhase fails st env).ok = true ∧
      (domPhase fails (msgPhase fails st env).state env).ok = true ∧
      ((domPhase fails (msgPhase fails st env).state env).state.handlers_newMessage.isNone
        && (domPhase fails (msgPhase fails st env).state env).state.handlers_domainChange.isNone) = true ∧
      tick fails st env =
        ((domPhase fails (msgPhase fails st env).state env).state,
         [Action.sleep (pyOr1 st.pooling_rate)] ++
           (msgPhase fails st env).trace ++
           (domPhase fails (msgPhase fails st env).state env).trace ++
           [Action.close],
         TickExit.exc false))
  ∨ (env.interrupt = false ∧ (msgPhase fails st env).ok = true ∧
      (domPhase fails (msgPhase fails st env).state env).ok = true ∧
      ((domPhase fails (msgPhase fails st env).state env).state.handlers_newMessage.isNone
        && (domPhase fails (msgPhase fails st env).state env).state.handlers_domainChange.isNone) = false ∧
      tick fails st env =
        ((domPhase fails (msgPhase fails st env).state env).state,
         [Action.sleep (pyOr1 st.pooling_rate)] ++
           (msgPhase fails st env).trace ++
           (domPhase fails (msgPhase fails st env).state env).trace,
         TickExit.normal)) := by
  by_cases hi : env.interrupt = true
  · exact Or.inl ⟨hi, by simp only [tick]; rw [if_pos hi]⟩
  · have hi' : env.interrupt = false := by
      cases h : env.interrupt
      · rfl
      · exact absurd h hi
    by_cases hok1 : (msgPhase fails st env).ok = false
    · refine Or.inr (Or.inl ⟨hi', hok1, ?_⟩)
      simp only [tick]
      rw [if_neg hi, if_pos hok1]
    · have hok1' : (msgPhase fails st env).ok = true := by
        cases h : (msgPhase fails st env).ok
        · exact absurd h hok1
        · rfl
      by_cases hok2 :
          (domPhase fails (msgPhase fails st env).state env).ok = false
      · refine Or.inr (Or.inr (Or.inl ⟨hi', hok1', hok2, ?_⟩))
        simp only [tick]
        rw [if_neg hi, if_neg hok1, if_pos hok2]
      · have hok2' :
            (domPhase fails (msgPhase fails st env).state env).ok = true := by
          cases h : (domPhase fails (msgPhase fails st env).state env).ok
          · exact absurd h hok2
          · rfl
        by_cases hsub :
            ((domPhase fails (msgPhase fails st env).state env).state.handlers_newMessage.isNone
              && (domPhase fails (msgPhase fails st env).state env).state.handlers_domainChange.isNone) = true
        · refine Or.inr (Or.inr (Or.inr (Or.inl ⟨hi', hok1', hok2', hsub, ?_⟩)))
          simp only [tick]
          rw [if_neg hi, if_neg hok1, if_neg hok2, if_pos hsub]
        · have hsub' :
              ((domPhase fails (msgPhase fails st env).state env).state.handlers_newMessage.isNone
                && (domPhase fails (msgPhase fails st env).state env).state.handlers_domainChange.isNone) = false := by
            cases h :
                ((domPhase fails (msgPhase fails st env).state env).state.handlers_newMessage.isNone
                  && (domPhase fails (msgPhase fails st env).state env).state.handlers_domainChange.isNone)
            · rfl
            · exact absurd h hsub
          refine Or.inr (Or.inr (Or.inr (Or.inr ⟨hi', hok1', hok2', hsub', ?_⟩)))
          simp only [tick]
          rw [if_neg hi, if_neg hok1, if_neg hok2, if_neg hsub]

theorem tick_state (fails : Nat → Event → Bool) (st : ServerState)
    (env : TickEnv) :
    ∃ lm ld, (tick fails st env).1 =
      { st with last_msg := lm, last_domain := ld } := by
  obtain ⟨lm, h1⟩ := msgPhase_state fails st env
  obtain ⟨ld', h2⟩ := domPhase_state fails (msgPhase fails st env).state env
  have h21 : (domPhase fails (msgPhase fails st env).state env).state =
      { st with last_msg := lm, last_domain := ld' } := by
    rw [h2, h1]
  rcases tick_cases fails st env with ⟨_, he⟩ | ⟨_, _, he⟩ | ⟨_, _, _, he⟩ |
      ⟨_, _, _, _, he⟩ | ⟨_, _, _, _, he⟩ <;> rw [he]
  · exact ⟨st.last_msg, st.last_domain, rfl⟩
  · exact ⟨lm, st.last_domain, by rw [show ((msgPhase fails st env).state,
      [Action.sleep (pyOr1 st.pooling_rate)] ++ (msgPhase fails st env).trace,
      TickExit.exc true).1 = (msgPhase fails st env).state from rfl, h1]⟩
  · exact ⟨lm, ld', by exact h21⟩
  · exact ⟨lm, ld', by exact h21⟩
  · exact ⟨lm, ld', by exact h21⟩

theorem tick_logging (fails : Nat → Event → Bool) (st : ServerState)
    (env : TickEnv) :
    (tick fails st env).1.logging_enabled = st.logging_enabled := by
  obtain ⟨lm, ld, h⟩ := tick_state fails st env
  rw [h]

theorem tick_inv (fails : Nat → Event → Bool) (st : ServerState)
    (env : TickEnv) (h1 : st.last_msg.length ≤ 1)
    (h2 : st.last_domain.length ≤ 1) :
    (tick fails st env).1.last_msg.length ≤ 1 ∧
      (tick fails st env).1.last_domain.length ≤ 1 := by
  have hm1 := msgPhase_len fails st env h1
  obtain ⟨lmf, hmf⟩ := msgPhase_state fails st env
  have hmd : (msgPhase fails st env).state.last_domain = st.last_domain := by
    rw [hmf]
  have hd1 := domPhase_len fails (msgPhase fails st env).state env
    (by rw [hmd]; exact h2)
  obtain ⟨ldf, hdf⟩ := domPhase_state fails (msgPhase fails st env).state env
  have hdm :
      (domPhase fails (msgPhase fails st env).state env).state.last_msg =
        (msgPhase fails st env).state.last_msg := by rw [hdf]
  rcases tick_cases fails st env with ⟨_, he⟩ | ⟨_, _, he⟩ | ⟨_, _, _, he⟩ |
      ⟨_, _, _, _, he⟩ | ⟨_, _, _, _, he⟩ <;> rw [he]
  · exact ⟨h1, h2⟩
  · constructor
    · show (msgPhase fails st env).state.last_msg.length ≤ 1
      exact hm1
    · show (msgPhase fails st env).state.last_domain.length ≤ 1
      rw [hmd]; exact h2
  · constructor
    · show (domPhase fails
          (msgPhase fails st env).state env).state.last_msg.length ≤ 1
      rw [hdm]; exact hm1
    · exact hd1
  · constructor
    · show (domPhase fails
          (msgPhase fails st env).state env).state.last_msg.length ≤ 1
      rw [hdm]; exact hm1
    · exact hd1
  · constructor
    · show (domPhase fails
          (msgPhase fails st env).state env).state.last_msg.length ≤ 1
      rw [hdm]; exact hm1
    · exact hd1

theorem msgWrites_dispatch (fails : Nat → Event → Bool)
    (st : ServerState) (e : Event) :
    msgWrites (dispatch fails st e).1 = 0 :=
  msgWrites_dispatchList fails (handlersFor st e.category) e

theorem domainWrites_dispatch (fails : Nat → Event → Bool)
    (st : ServerState) (e : Event) :
    domainWrites (dispatch fails st e).1 = 0 :=
  domainWrites_dispatchList fails (handlersFor st e.category) e

/-- Exact number of writes to the message slot performed by one
message check whose fetch succeeds with a non-empty view. -/
theorem msgWrites_check_msgs (fails : Nat → Event → Bool)
    (st : ServerState) (m : Message) (ms : List Message) :
    msgWrites (check_for_new_messages fails st
        (FetchResult.ok (some ⟨m :: ms⟩))).trace =
      (match st.last_msg with
       | [] => 1
       | m0 :: _ => if m0.id = m.id then 0 else 1) := by
  obtain ⟨hnm, hdc, lm, ld, le, se, pr, be⟩ := st
  cases lm with
  | nil =>
      simp only [check_for_new_messages]
      rw [msgWrites_append, msgWrites_append, msgWrites_dispatch]
      split
      · rw [msgWrites_log]
        rfl
      · rfl
  | cons m0 tl =>
      by_cases hid : m0.id = m.id
      · simp only [check_for_new_messages]
        rw [if_pos hid]
        rw [if_pos hid]
        rfl
      · simp only [check_for_new_messages]
        rw [if_neg hid]
        rw [if_neg hid]
        rw [msgWrites_append, msgWrites_append, msgWrites_dispatch]
        split
        · rw [msgWrites_log]
          rfl
        · rfl

/-- Exact number of writes to the domain slot performed by one domain
check whose fetch succeeds with a non-empty view. -/
theorem domainWrites_check_dom (fails : Nat → Event → Bool)
    (st : ServerState) (d : Domain) (ds : List Domain) :
    domainWrites (check_for_new_domain fails st
        (FetchResult.ok (some ⟨d :: ds⟩))).trace =
      (match st.last_domain with
       | [] => 1
       | d0 :: _ => if d0.id = d.id then 0 else 1) := by
  obtain ⟨hnm, hdc, lm, ld, le, se, pr, be⟩ := st
  cases ld with
  | nil =>
      simp only [check_for_new_domain]
      rw [domainWrites_append, domainWrites_append, domainWrites_dispatch]
      split
      · rw [domainWrites_log]
        rfl
      · rfl
  | cons d0 tl =>
      by_cases hid : d0.id = d.id
      · simp only [check_for_new_domain]
        rw [if_pos hid]
        rw [if_pos hid]
        rfl
      · simp only [check_for_new_domain]
        rw [if_neg hid]
        rw [if_neg hid]
        rw [domainWrites_append, domainWrites_append, domainWrites_dispatch]
        split
        · rw [domainWrites_log]
          rfl
        · rfl

theorem msgWrites_check_msgs_le (fails : Nat → Event → Bool)
    (st : ServerState) (f : FetchResult MessageView) :
    msgWrites (check_for_new_messages fails st f).trace ≤ 1 := by
  cases f with
  | raise => exact Nat.zero_le 1
  | ok mv =>
    cases mv with
    | none => exact Nat.zero_le 1
    | some view =>
      obtain ⟨msgs⟩ := view
      cases msgs with
      | nil => exact Nat.zero_le 1
      | cons m ms =>
          rw [msgWrites_check_msgs fails st m ms]
          cases st.last_msg with
          | nil => exact Nat.le_refl 1
          | cons m0 tl =>
              show (if m0.id = m.id then (0 : Nat) else 1) ≤ 1
              by_cases hid : m0.id = m.id
              · rw [if_pos hid]
                exact Nat.zero_le 1
              · rw [if_neg hid]

theorem domainWrites_check_dom_le (fails : Nat → Event → Bool)
    (st : ServerState) (f : FetchResult DomainView) :
    domainWrites (check_for_new_domain fails st f).trace ≤ 1 := by
  cases f with
  | raise => exact Nat.zero_le 1
  | ok dv =>
    cases dv with
    | none => exact Nat.zero_le 1
    | some view =>
      obtain ⟨doms⟩ := view
      cases doms with
      | nil => exact Nat.zero_le 1
      | cons d ds =>
          rw [domainWrites_check_dom fails st d ds]
          cases st.last_domain with
          | nil => exact Nat.le_refl 1
          | cons d0 tl =>
              show (if d0.id = d.id then (0 : Nat) else 1) ≤ 1
              by_cases hid : d0.id = d.id
              · rw [if_pos hid]
                exact Nat.zero_le 1
              · rw [if_neg hid]

theorem msgWrites_msgPhase_le (fails : Nat → Event → Bool)
    (st : ServerState) (env : TickEnv) :
    msgWrites (msgPhase fails st env).trace ≤ 1 := by
  unfold msgPhase
  split
  · exact msgWrites_check_msgs_le fails st env.msgFetch
  · exact Nat.zero_le 1

theorem domainWrites_domPhase_le (fails : Nat → Event → Bool)
    (st : ServerState) (env : TickEnv) :
    domainWrites (domPhase fails st env).trace ≤ 1 := by
  unfold domPhase
  split
  · exact domainWrites_check_dom_le fails st env.domFetch
  · exact Nat.zero_le 1

theorem msgWrites_domPhase (fails : Nat → Event → Bool)
    (st : ServerState) (env : TickEnv) :
    msgWrites (domPhase fails st env).trace = 0 :=
  msgWrites_eq_zero _ (domPhase_no_setLastMsg fails st env)

theorem domainWrites_msgPhase (fails : Nat → Event → Bool)
    (st : ServerState) (env : TickEnv) :
    domainWrites (msgPhase fails st env).trace = 0 :=
  domainWrites_eq_zero _ (msgPhase_no_setLastDomain fails st env)

theorem tick_msgWrites_le (fails : Nat → Event → Bool) (st : ServerState)
    (env : TickEnv) : msgWrites (tick fails st env).2.1 ≤ 1 := by
  rcases tick_cases fails st env with ⟨_, he⟩ | ⟨_, _, he⟩ | ⟨_, _, _, he⟩ |
      ⟨_, _, _, _, he⟩ | ⟨_, _, _, _, he⟩ <;> rw [he]
  · exact Nat.zero_le 1
  · show msgWrites ([Action.sleep (pyOr1 st.pooling_rate)] ++
        (msgPhase fails st env).trace) ≤ 1
    rw [msgWrites_append]
    have h := msgWrites_msgPhase_le fails st env
    have h0 : msgWrites [Action.sleep (pyOr1 st.pooling_rate)] = 0 := rfl
    omega
  · show msgWrites ([Action.sleep (pyOr1 st.pooling_rate)] ++
        (msgPhase fails st env).trace ++
        (domPhase fails (msgPhase fails st env).state env).trace) ≤ 1
    rw [msgWrites_append, msgWrites_append,
      msgWrites_domPhase fails (msgPhase fails st env).state env]
    have h := msgWrites_msgPhase_le fails st env
    have h0 : msgWrites [Action.sleep (pyOr1 st.pooling_rate)] = 0 := rfl
    omega
  · show msgWrites ([Action.sleep (pyOr1 st.pooling_rate)] ++
        (msgPhase fails st env).trace ++
        (domPhase fails (msgPhase fails st env).state env).trace ++
        [Action.close]) ≤ 1
    rw [msgWrites_append, msgWrites_append, msgWrites_append,
      msgWrites_domPhase fails (msgPhase fails st env).state env]
    have h := msgWrites_msgPhase_le fails st env
    have hc : msgWrites [Action.close] = 0 := rfl
    have h0 : msgWrites [Action.sleep (pyOr1 st.pooling_rate)] = 0 := rfl
    omega
  · show msgWrites ([Action.sleep (pyOr1 st.pooling_rate)] ++
        (msgPhase fails st env).trace ++
        (domPhase fails (msgPhase fails st env).state env).trace) ≤ 1
    rw [msgWrites_append, msgWrites_append,
      msgWrites_domPhase fails (msgPhase fails st env).state env]
    have h := msgWrites_msgPhase_le fails st env
    have h0 : msgWrites [Action.sleep (pyOr1 st.pooling_rate)] = 0 := rfl
    omega

theorem tick_domainWrites_le (fails : Nat → Event → Bool)
    (st : ServerState) (env : TickEnv) :
    domainWrites (tick fails st env).2.1 ≤ 1 := by
  rcases tick_cases fails st env with ⟨_, he⟩ | ⟨_, _, he⟩ | ⟨_, _, _, he⟩ |
      ⟨_, _, _, _, he⟩ | ⟨_, _, _, _, he⟩ <;> rw [he]
  · exact Nat.zero_le 1
  · show domainWrites ([Action.sleep (pyOr1 st.pooling_rate)] ++
        (msgPhase fails st env).trace) ≤ 1
    rw [domainWrites_append, domainWrites_msgPhase]
    have h0 : domainWrites [Action.sleep (pyOr1 st.pooling_rate)] = 0 := rfl
    omega
  · show domainWrites ([Action.sleep (pyOr1 st.pooling_rate)] ++
        (msgPhase fails st env).trace ++
        (domPhase fails (msgPhase fails st env).state env).trace) ≤ 1
    rw [domainWrites_append, domainWrites_append, domainWrites_msgPhase]
    have h := domainWrites_domPhase_le fails (msgPhase fails st env).state env
    have h0 : domainWrites [Action.sleep (pyOr1 st.pooling_rate)] = 0 := rfl
    omega
  · show domainWrites ([Action.sleep (pyOr1 st.pooling_rate)] ++
        (msgPhase fails st env).trace ++
        (domPhase fails (msgPhase fails st env).state env).trace ++
        [Action.close]) ≤ 1
    rw [domainWrites_append, domainWrites_append, domainWrites_append,
      domainWrites_msgPhase]
    have h := domainWrites_domPhase_le fails (msgPhase fails st env).state env
    have hc : domainWrites [Action.close] = 0 := rfl
    have h0 : domainWrites [Action.sleep (pyOr1 st.pooling_rate)] = 0 := rfl
    omega
  · show domainWrites ([Action.sleep (pyOr1 st.pooling_rate)] ++
        (msgPhase fails st env).trace ++
        (domPhase fails (msgPhase fails st env).state env).trace) ≤ 1
    rw [domainWrites_append, domainWrites_append, domainWrites_msgPhase]
    have h := domainWrites_domPhase_le fails (msgPhase fails st env).state env
    have h0 : domainWrites [Action.sleep (pyOr1 st.pooling_rate)] = 0 := rfl
    omega

theorem tick_closeCount_exc_true (fails : Nat → Event → Bool)
    (st : ServerState) (env : TickEnv)
    (h : (tick fails st env).2.2 = TickExit.exc true) :
    closeCount (tick fails st env).2.1 = 0 := by
  rcases tick_cases fails st env with ⟨_, he⟩ | ⟨_, _, he⟩ | ⟨_, _, _, he⟩ |
      ⟨_, _, _, _, he⟩ | ⟨_, _, _, _, he⟩ <;> rw [he] at h ⊢
  · simp at h
  · show closeCount ([Action.sleep (pyOr1 st.pooling_rate)] ++
        (msgPhase fails st env).trace) = 0
    rw [closeCount_append, closeCount_msgPhase]
    rfl
  · show closeCount ([Action.sleep (pyOr1 st.pooling_rate)] ++
        (msgPhase fails st env).trace ++
        (domPhase fails (msgPhase fails st env).state env).trace) = 0
    rw [closeCount_append, closeCount_append, closeCount_msgPhase,
      closeCount_domPhase]
    rfl
  · simp at h
  · simp at h

theorem tick_head (fails : Nat → Event → Bool) (st : ServerState)
    (env : TickEnv) (hi : env.interrupt = false) :
    (tick fails st env).2.1.head? =
      some (Action.sleep (pyOr1 st.pooling_rate)) := by
  rcases tick_cases fails st env with ⟨hii, he⟩ | ⟨_, _, he⟩ | ⟨_, _, _, he⟩ |
      ⟨_, _, _, _, he⟩ | ⟨_, _, _, _, he⟩ <;> rw [he]
  · rw [hi] at hii
    exact Bool.noConfusion hii
  · simp
  · simp
  · simp
  · simp

/-! ### Runner lemmas -/

theorem runnerLoop_exc (fails : Nat → Event → Bool) (st : ServerState)
    (env : TickEnv) (rest : List TickEnv) (b : Bool)
    (h : (tick fails st env).2.2 = TickExit.exc b) :
    runnerLoop fails st (env :: rest) =
      ((tick fails st env).1, (tick fails st env).2.1,
        LoopExit.excCaught) := by
  simp only [runnerLoop]
  rw [h]

theorem runner_exc (fails : Nat → Event → Bool) (st : ServerState)
    (env : TickEnv) (rest : List TickEnv) (b : Bool)
    (h : (tick fails st env).2.2 = TickExit.exc b) :
    runner fails st (env :: rest) =
      ((tick fails st env).1,
        preamble st ++ (tick fails st env).2.1 ++ [Action.close] ++
          log (tick fails st env).1 "Exception while running server"
            Severity.INFO,
        LoopExit.excCaught) := by
  unfold runner
  rw [runnerLoop_exc fails st env rest b h]

theorem runnerLoop_inv (fails : Nat → Event → Bool) (envs : List TickEnv) :
    ∀ st : ServerState, st.last_msg.length ≤ 1 →
      st.last_domain.length ≤ 1 →
      (runnerLoop fails st envs).1.last_msg.length ≤ 1 ∧
        (runnerLoop fails st envs).1.last_domain.length ≤ 1 := by
  induction envs with
  | nil => intro st h1 h2; exact ⟨h1, h2⟩
  | cons env rest ih =>
      intro st h1 h2
      have ht := tick_inv fails st env h1 h2
      simp only [runnerLoop]
      cases he : (tick fails st env).2.2 with
      | normal => exact ih (tick fails st env).1 ht.1 ht.2
      | exc b => exact ht
      | kb => exact ht

/-! ### Positional ordering helper -/

theorem mem_index_lt {α : Type} (A B : List α) (p q : α → Bool)
    (hA : ∀ a ∈ A, q a = false) (hB : ∀ b ∈ B, p b = false)
    (k j : Nat) (x y : α)
    (hk : (A ++ B).get? k = some x) (hpx : p x = true)
    (hj : (A ++ B).get? j = some y) (hqy : q y = true) : k < j := by
  have hkA : k < A.length := by
    by_contra hge
    push_neg at hge
    rw [List.get?_append_right hge] at hk
    have hxB : x ∈ B := List.get?_mem hk
    rw [hB x hxB] at hpx
    exact Bool.noConfusion hpx
  have hjA : A.length ≤ j := by
    by_contra hlt
    push_neg at hlt
    rw [List.get?_append hlt] at hj
    have hyA : y ∈ A := List.get?_mem hj
    rw [hA y hyA] at hqy
    exact Bool.noConfusion hqy
  exact lt_of_lt_of_le hkA hjA

theorem sleep_msgPhase_no_fetchDomains (fails : Nat → Event → Bool)
    (st : ServerState) (env : TickEnv) :
    ∀ a ∈ [Action.sleep (pyOr1 st.pooling_rate)] ++
        (msgPhase fails st env).trace, isFetchDomains a = false := by
  intro a ha
  rcases List.mem_append.mp ha with h1 | h2
  · simp at h1
    subst h1
    rfl
  · exact msgPhase_no_fetchDomains fails st env a h2

theorem domPhase_close_no_nmInvoke (fails : Nat → Event → Bool)
    (st : ServerState) (env : TickEnv) :
    ∀ b ∈ (domPhase fails st env).trace ++ [Action.close],
      isNewMessageInvoke b = false := by
  intro b hb
  rcases List.mem_append.mp hb with h1 | h2
  · exact domPhase_no_nmInvoke fails st env b h1
  · simp at h2
    subst h2
    rfl

/-! ### The claims -/

/-- C1 (code bug): the spec requires `mail_client.close()` to run exactly
once on every terminating path, but the code closes twice on the
no-subscribers path (once before raising at line 288, once again in the
`except Exception` handler at line 293) and zero times on a
`KeyboardInterrupt` (which `except Exception` does not catch and whose
handler in `run` only logs). The first conjunct runs a default server
with no handlers for one tick: the loop terminates via the
no-subscribers raise with two `close` calls; the second runs a server
with one handler into a `KeyboardInterrupt`: the loop terminates with
zero `close` calls. -/
theorem C1_close_count_bug :
    ((runner noFail (defaultServer none) [quietTick]).2.2 =
        LoopExit.excCaught ∧
      closeCount (run noFail (defaultServer none) [quietTick]).2 = 2) ∧
    ((runner noFail oneMsgHandlerServer [kbTick]).2.2 =
        LoopExit.kbPropagated ∧
      closeCount (run noFail oneMsgHandlerServer [kbTick]).2 = 0) := by
  refine ⟨⟨?_, ?_⟩, ⟨?_, ?_⟩⟩ <;> rfl

/-- C2: with exactly one NewMessage handler and the fetch sequence
`[absent, m1, m1, m2]` over four ticks, the handler fires exactly on
ticks 2 and 4, with payloads `m1` then `m2`, and never on ticks 1 and 3;
the whole four-tick run performs exactly those two invocations in that
order. -/
theorem C2_scenario_two_events :
    invokes (tick noFail oneMsgHandlerServer quietTick).2.1 = [] ∧
    invokes (tick noFail
        (tick noFail oneMsgHandlerServer quietTick).1
        (msgTick msgM1)).2.1 =
      [Action.invoke 0 (Event.newMessage msgM1)] ∧
    invokes (tick noFail
        (tick noFail
          (tick noFail oneMsgHandlerServer quietTick).1
          (msgTick msgM1)).1
        (msgTick msgM1)).2.1 = [] ∧
    invokes (tick noFail
        (tick noFail
          (tick noFail
            (tick noFail oneMsgHandlerServer quietTick).1
            (msgTick msgM1)).1
          (msgTick msgM1)).1
        (msgTick msgM2)).2.1 =
      [Action.invoke 0 (Event.newMessage msgM2)] ∧
    invokes (runnerLoop noFail oneMsgHandlerServer
        [quietTick, msgTick msgM1, msgTick msgM1, msgTick msgM2]).2.1 =
      [Action.invoke 0 (Event.newMessage msgM1),
       Action.invoke 0 (Event.newMessage msgM2)] := by
  refine ⟨?_, ?_, ?_, ?_, ?_⟩ <;> rfl

/-- C4: within one tick, every invocation of a handler with a NewMessage
event occurs strictly earlier in the tick trace than every
`get_domains()` fetch: message detection and dispatch fully precede
domain detection. -/
theorem C4_message_dispatch_before_domain_fetch
    (fails : Nat → Event → Bool) (st : ServerState) (env : TickEnv)
    (k j h : Nat) (m : Message)
    (hk : (tick fails st env).2.1.get? k =
      some (Action.invoke h (Event.newMessage m)))
    (hj : (tick fails st env).2.1.get? j = some Action.fetchDomains) :
    k < j := by
  rcases tick_cases fails st env with ⟨_, he⟩ | ⟨_, _, he⟩ | ⟨_, _, _, he⟩ |
      ⟨_, _, _, _, he⟩ | ⟨_, _, _, _, he⟩ <;> rw [he] at hk hj
  · simp at hk
  · have hy := sleep_msgPhase_no_fetchDomains fails st env
      Action.fetchDomains (List.get?_mem hj)
    exact Bool.noConfusion hy
  · exact mem_index_lt
      ([Action.sleep (pyOr1 st.pooling_rate)] ++ (msgPhase fails st env).trace)
      (domPhase fails (msgPhase fails st env).state env).trace
      isNewMessageInvoke isFetchDomains
      (sleep_msgPhase_no_fetchDomains fails st env)
      (domPhase_no_nmInvoke fails (msgPhase fails st env).state env)
      k j _ _ hk rfl hj rfl
  · rw [List.append_assoc] at hk hj
    exact mem_index_lt
      ([Action.sleep (pyOr1 st.pooling_rate)] ++ (msgPhase fails st env).trace)
      ((domPhase fails (msgPhase fails st env).state env).trace ++
        [Action.close])
      isNewMessageInvoke isFetchDomains
      (sleep_msgPhase_no_fetchDomains fails st env)
      (domPhase_close_no_nmInvoke fails (msgPhase fails st env).state env)
      k j _ _ hk rfl hj rfl
  · exact mem_index_lt
      ([Action.sleep (pyOr1 st.pooling_rate)] ++ (msgPhase fails st env).trace)
      (domPhase fails (msgPhase fails st env).state env).trace
      isNewMessageInvoke isFetchDomains
      (sleep_msgPhase_no_fetchDomains fails st env)
      (domPhase_no_nmInvoke fails (msgPhase fails st env).state env)
      k j _ _ hk rfl hj rfl

/-- Witness for C4: a tick with both categories registered and both
fetches returning a first observation: the NewMessage invocation sits at
index 3, the domain fetch at index 4, and the theorem yields 3 < 4. -/
theorem C4_ordering_witness :
    (tick noFail twoCatServer (bothTick msgM1 domD1)).2.1.get? 3 =
      some (Action.invoke 0 (Event.newMessage msgM1)) ∧
    (tick noFail twoCatServer (bothTick msgM1 domD1)).2.1.get? 4 =
      some Action.fetchDomains ∧ 3 < 4 := by
  refine ⟨rfl, rfl, ?_⟩
  exact C4_message_dispatch_before_domain_fetch noFail twoCatServer
    (bothTick msgM1 domD1) 3 4 0 msgM1 rfl rfl

/-- C3 counterexample: under the default configuration
(`enable_logging=False`), a handler failure terminates the loop and the
collaborator is closed, but nothing whatsoever is printed: the failure is
silently swallowed, contradicting "the failure is reported (logged) ...
for every server configuration, including the default one". -/
theorem C3_default_config_swallows_failure :
    (runner failAll (on_new_message (defaultServer none) 0)
        [msgTick msgM1]).2.2 = LoopExit.excCaught ∧
    closeCount (runner failAll (on_new_message (defaultServer none) 0)
        [msgTick msgM1]).2.1 = 1 ∧
    prints (runner failAll (on_new_message (defaultServer none) 0)
        [msgTick msgM1]).2.1 = [] := by
  refine ⟨?_, ?_, ?_⟩ <;> rfl

/-- C3 amended: when a tick raises out of a check (a handler failure
during dispatch or a mail-client failure during fetch), the loop
terminates at that tick without processing any later tick (the result is
independent of the remaining environments), the collaborator is closed
exactly once afterwards, and the failure is logged if and only if logging
is enabled — with the default configuration (logging disabled) it is
silently swallowed. -/
theorem C3_failfast_close_and_conditional_log (fails : Nat → Event → Bool)
    (st : ServerState) (env : TickEnv) (rest : List TickEnv)
    (hx : (tick fails st env).2.2 = TickExit.exc true) :
    runner fails st (env :: rest) =
      ((tick fails st env).1,
        preamble st ++ (tick fails st env).2.1 ++ [Action.close] ++
          log (tick fails st env).1 "Exception while running server"
            Severity.INFO,
        LoopExit.excCaught) ∧
    closeCount (runner fails st (env :: rest)).2.1 = 1 ∧
    (st.logging_enabled = true →
      prints (runner fails st (env :: rest)).2.1 ≠ []) := by
  have hr := runner_exc fails st env rest true hx
  refine ⟨hr, ?_, ?_⟩
  · rw [hr]
    show closeCount (preamble st ++ (tick fails st env).2.1 ++
      [Action.close] ++
      log (tick fails st env).1 "Exception while running server"
        Severity.INFO) = 1
    rw [closeCount_append, closeCount_append, closeCount_append,
      closeCount_preamble, tick_closeCount_exc_true fails st env hx,
      closeCount_log]
    rfl
  · intro hlog
    rw [hr]
    show prints (preamble st ++ (tick fails st env).2.1 ++
      [Action.close] ++
      log (tick fails st env).1 "Exception while running server"
        Severity.INFO) ≠ []
    have hl : (tick fails st env).1.logging_enabled = true := by
      rw [tick_logging]
      exact hlog
    have hmem :
        Action.printLine Severity.INFO "Exception while running server" ∈
          log (tick fails st env).1 "Exception while running server"
            Severity.INFO :=
      log_nonempty_of_logging (tick fails st env).1
        "Exception while running server" hl
    have hmem2 :
        Action.printLine Severity.INFO "Exception while running server" ∈
          preamble st ++ (tick fails st env).2.1 ++ [Action.close] ++
            log (tick fails st env).1 "Exception while running server"
              Severity.INFO :=
      List.mem_append.mpr (Or.inr hmem)
    have hinp :
        Action.printLine Severity.INFO "Exception while running server" ∈
          prints (preamble st ++ (tick fails st env).2.1 ++
            [Action.close] ++
            log (tick fails st env).1 "Exception while running server"
              Severity.INFO) :=
      List.mem_filter.mpr ⟨hmem2, rfl⟩
    exact List.ne_nil_of_mem hinp

/-- Witness for the amended C3: a logging-enabled server whose single
handler raises on the first dispatch; a second tick is supplied and
ignored; the collaborator is closed once and the failure is printed. -/
theorem C3_failfast_witness :
    (tick failAll loggingServer (msgTick msgM1)).2.2 =
      TickExit.exc true ∧
    closeCount (runner failAll loggingServer
        [msgTick msgM1, quietTick]).2.1 = 1 ∧
    prints (runner failAll loggingServer
        [msgTick msgM1, quietTick]).2.1 ≠ [] := by
  have h := C3_failfast_close_and_conditional_log failAll loggingServer
    (msgTick msgM1) [quietTick] rfl
  exact ⟨rfl, h.2.1, h.2.2 rfl⟩

/-- C5: dispatch invokes exactly the handlers registered for the event
category, in registration order, one per registration (duplicates
included), and completes when none raises; registration appends to the
end of the category sequence. -/
theorem C5_dispatch_registration_order (fails : Nat → Event → Bool)
    (st : ServerState) (e : Event)
    (h : ∀ x ∈ handlersFor st e.category, fails x e = false) :
    (dispatch fails st e).1 =
      (handlersFor st e.category).map (fun x => Action.invoke x e) ∧
    (dispatch fails st e).2 = true ∧
    (∀ cat x, handlersFor (subscribe st cat x) cat =
      handlersFor st cat ++ [x]) := by
  have hd := dispatchList_eq_map fails (handlersFor st e.category) e h
  refine ⟨?_, ?_, ?_⟩
  · show (dispatchList fails (handlersFor st e.category) e).1 = _
    rw [hd]
  · show (dispatchList fails (handlersFor st e.category) e).2 = true
    rw [hd]
  · intro cat x
    cases cat <;> simp [subscribe, handlersFor]

/-- Witness for C5: handler 0 registered twice and handler 1 once for
NewMessage; dispatch invokes 0, 0, 1 in that order. -/
theorem C5_order_witness :
    (dispatch noFail dupHandlerServer (Event.newMessage msgM1)).1 =
      [Action.invoke 0 (Event.newMessage msgM1),
       Action.invoke 0 (Event.newMessage msgM1),
       Action.invoke 1 (Event.newMessage msgM1)] := by
  have h := C5_dispatch_registration_order noFail dupHandlerServer
    (Event.newMessage msgM1) (by decide)
  rw [h.1]
  rfl

/-- C6: when the fetched head entity has the same identifier as the
stored last-seen entity, the check is a complete no-op — state unchanged,
no slot write, no dispatch — regardless of every other field of the
fetched entity; for both categories. -/
theorem C6_same_id_noop (fails : Nat → Event → Bool) (st : ServerState)
    (m0 m : Message) (ms : List Message) (d0 d : Domain) (ds : List Domain)
    (hm : st.last_msg.head? = some m0) (hmid : m.id = m0.id)
    (hd : st.last_domain.head? = some d0) (hdid : d.id = d0.id) :
    check_for_new_messages fails st (FetchResult.ok (some ⟨m :: ms⟩)) =
      ⟨st, [Action.fetchMessages], true⟩ ∧
    check_for_new_domain fails st (FetchResult.ok (some ⟨d :: ds⟩)) =
      ⟨st, [Action.fetchDomains], true⟩ := by
  obtain ⟨hnm, hdc, lm, ld, le, se, pr, be⟩ := st
  simp only at hm hd
  constructor
  · cases lm with
    | nil => simp at hm
    | cons a tl =>
        simp at hm
        subst hm
        simp only [check_for_new_messages]
        rw [if_pos hmid.symm]
  · cases ld with
    | nil => simp at hd
    | cons a tl =>
        simp at hd
        subst hd
        simp only [check_for_new_domain]
        rw [if_pos hdid.symm]

/-- Witness for C6: last-seen slots hold `m1`/`d1`; the fetch returns
entities with the same identifiers but different other fields; both
checks return the state untouched with only the fetch in the trace. -/
theorem C6_same_id_witness :
    check_for_new_messages noFail seededServer
        (FetchResult.ok (some ⟨[msgM1other]⟩)) =
      ⟨seededServer, [Action.fetchMessages], true⟩ ∧
    check_for_new_domain noFail seededServer
        (FetchResult.ok (some ⟨[domD1other]⟩)) =
      ⟨seededServer, [Action.fetchDomains], true⟩ :=
  C6_same_id_noop noFail seededServer msgM1 msgM1other [] domD1 domD1other
    [] rfl rfl rfl rfl

/-- C7: an absent (`None`) or empty fetch leaves the check a complete
no-op — the state (in particular the last-seen slot) is exactly as
before, the trace holds only the fetch (no event, no slot write) — and
each check only ever touches its own category slot, whatever the fetch
returns. -/
theorem C7_absent_fetch_frame (fails : Nat → Event → Bool)
    (st : ServerState) :
    check_for_new_messages fails st (FetchResult.ok none) =
      ⟨st, [Action.fetchMessages], true⟩ ∧
    check_for_new_messages fails st (FetchResult.ok (some ⟨[]⟩)) =
      ⟨st, [Action.fetchMessages], true⟩ ∧
    check_for_new_domain fails st (FetchResult.ok none) =
      ⟨st, [Action.fetchDomains], true⟩ ∧
    check_for_new_domain fails st (FetchResult.ok (some ⟨[]⟩)) =
      ⟨st, [Action.fetchDomains], true⟩ ∧
    (∀ f, ∃ l, (check_for_new_messages fails st f).state =
      { st with last_msg := l }) ∧
    (∀ f, ∃ l, (check_for_new_domain fails st f).state =
      { st with last_domain := l }) :=
  ⟨rfl, rfl, rfl, rfl,
    fun f => check_msgs_state fails st f,
    fun f => check_dom_state fails st f⟩

/-- The LastSeen invariant: each last-seen holder contains at most one
element. -/
def Inv (st : ServerState) : Prop :=
  st.last_msg.length ≤ 1 ∧ st.last_domain.length ≤ 1

/-- C8: both last-seen holders start empty and stay of length at most one
through every operation: initialization, registration, each check, a full
tick, and any run of the loop. (`dispatch` does not touch the server state
at all in the model, so it preserves the invariant trivially.) -/
theorem C8_last_seen_at_most_one (fails : Nat → Event → Bool)
    (st : ServerState) (hInv : Inv st) :
    (∀ p b s e, Inv (initServer p b s e)) ∧
    (∀ cat x, Inv (subscribe st cat x)) ∧
    (∀ f, Inv (check_for_new_messages fails st f).state) ∧
    (∀ f, Inv (check_for_new_domain fails st f).state) ∧
    (∀ env, Inv (tick fails st env).1) ∧
    (∀ envs, Inv (runnerLoop fails st envs).1) := by
  obtain ⟨h1, h2⟩ := hInv
  refine ⟨?_, ?_, ?_, ?_, ?_, ?_⟩
  · intro p b s e
    exact ⟨Nat.zero_le 1, Nat.zero_le 1⟩
  · intro cat x
    constructor
    · show (subscribe st cat x).last_msg.length ≤ 1
      cases cat <;> exact h1
    · show (subscribe st cat x).last_domain.length ≤ 1
      cases cat <;> exact h2
  · intro f
    constructor
    · rcases check_msgs_last_msg fails st f with he | ⟨_, mm, he⟩ |
          ⟨mm, he⟩ <;> rw [he]
      · exact h1
      · simp
      · simpa using h1
    · obtain ⟨l, hl⟩ := check_msgs_state fails st f
      rw [hl]
      exact h2
  · intro f
    constructor
    · obtain ⟨l, hl⟩ := check_dom_state fails st f
      rw [hl]
      exact h1
    · rcases check_dom_last_domain fails st f with he | ⟨_, dd, he⟩ |
          ⟨dd, he⟩ <;> rw [he]
      · exact h2
      · simp
      · simpa using h2
  · intro env
    exact tick_inv fails st env h1 h2
  · intro envs
    exact runnerLoop_inv fails envs st h1 h2

/-- Witness for C8: the invariant holds after a three-tick run of a
server with one message handler. -/
theorem C8_invariant_witness :
    Inv (runnerLoop noFail oneMsgHandlerServer
      [quietTick, msgTick msgM1, msgTick msgM2]).1 := by
  have h := C8_last_seen_at_most_one noFail oneMsgHandlerServer
    ⟨by decide, by decide⟩
  exact h.2.2.2.2.2 [quietTick, msgTick msgM1, msgTick msgM2]

/-- C9 counterexample: a tick whose fetch succeeds (present, non-empty
view) with the same identifier as the stored last-seen message performs
zero writes to the slot, not exactly one: the claim "mutated exactly
once per tick in which a fetch succeeds" fails on the no-change tick. -/
theorem C9_same_id_zero_writes :
    msgWrites (check_for_new_messages noFail seededMsgServer
        (FetchResult.ok (some ⟨[msgM1other]⟩))).trace = 0 ∧
    ¬ msgWrites (check_for_new_messages noFail seededMsgServer
        (FetchResult.ok (some ⟨[msgM1other]⟩))).trace = 1 := by
  exact ⟨rfl, by decide⟩

/-- C9 amended: on a tick whose fetch succeeds, the category slot is
written exactly once when the fetched head is a change (empty slot or
different identifier) and zero times when the identifier matches; each
check never writes the other category slot, a tick writes each slot at
most once, and neither dispatch nor registration ever writes a slot. -/
theorem C9_write_count (fails : Nat → Event → Bool) (st : ServerState)
    (m : Message) (ms : List Message) (d : Domain) (ds : List Domain)
    (env : TickEnv) :
    msgWrites (check_for_new_messages fails st
        (FetchResult.ok (some ⟨m :: ms⟩))).trace =
      (match st.last_msg with
       | [] => 1
       | m0 :: _ => if m0.id = m.id then 0 else 1) ∧
    domainWrites (check_for_new_domain fails st
        (FetchResult.ok (some ⟨d :: ds⟩))).trace =
      (match st.last_domain with
       | [] => 1
       | d0 :: _ => if d0.id = d.id then 0 else 1) ∧
    domainWrites (check_for_new_messages fails st
        (FetchResult.ok (some ⟨m :: ms⟩))).trace = 0 ∧
    msgWrites (check_for_new_domain fails st
        (FetchResult.ok (some ⟨d :: ds⟩))).trace = 0 ∧
    msgWrites (tick fails st env).2.1 ≤ 1 ∧
    domainWrites (tick fails st env).2.1 ≤ 1 ∧
    (∀ hs e, msgWrites (dispatchList fails hs e).1 = 0 ∧
      domainWrites (dispatchList fails hs e).1 = 0) ∧
    (∀ cat x, (subscribe st cat x).last_msg = st.last_msg ∧
      (subscribe st cat x).last_domain = st.last_domain) := by
  refine ⟨msgWrites_check_msgs fails st m ms,
    domainWrites_check_dom fails st d ds,
    domainWrites_eq_zero _ (check_msgs_no_setLastDomain fails st _),
    msgWrites_eq_zero _ (check_dom_no_setLastMsg fails st _),
    tick_msgWrites_le fails st env,
    tick_domainWrites_le fails st env,
    fun hs e => ⟨msgWrites_dispatchList fails hs e,
      domainWrites_dispatchList fails hs e⟩,
    fun cat x => ?_⟩
  cases cat <;> exact ⟨rfl, rfl⟩

/-- C10: `self._pooling_rate or 1` coerces the falsy rate 0 exactly like
`None`: with `pooling_rate = 0` the tick sleeps 1 second, identical to
the unspecified case. -/
theorem C10_zero_rate_sleeps_one (fails : Nat → Event → Bool)
    (st : ServerState) (f1 : FetchResult MessageView)
    (f2 : FetchResult DomainView) :
    pyOr1 (some 0) = 1 ∧ pyOr1 none = 1 ∧
    (tick fails { st with pooling_rate := some 0 }
        ⟨false, f1, f2⟩).2.1.head? = some (Action.sleep 1) ∧
    (tick fails { st with pooling_rate := none }
        ⟨false, f1, f2⟩).2.1.head? = some (Action.sleep 1) := by
  refine ⟨rfl, rfl, ?_, ?_⟩
  · exact tick_head fails { st with pooling_rate := some 0 }
      ⟨false, f1, f2⟩ rfl
  · exact tick_head fails { st with pooling_rate := none }
      ⟨false, f1, f2⟩ rfl

end MailTM
